import Mathlib

/-!
Verification of the hardware stress-test harness in `src/c.py`.

The file gives a shallow embedding of the parts of the program the
claims are about: the configuration constants, the shared cancellation
token (`stop_event`, a `threading.Event`), the `cleanup` shutdown
routine, the RAM worker's chunk ring, the disk worker's control flow,
the cache worker's access pattern, and the diagnosis monitor's rate
computation.  Theorems about these definitions follow the definitions.
-/

namespace StressTest

/-! Configuration constants, copied from `src/c.py`:
`RAM_CHUNK_SIZE = 500 * 4096 * 4096` (line 27),
the disk write buffer `os.urandom(4096 * 4096)` (line 163),
the initial disk file `os.urandom(10 * 4096 * 4096)` (line 183),
`array_size = 256_000_000` and `stride = 4096` in `cache_stress`
(lines 90-93), and `MONITOR_INTERVAL = 5.0` (line 28). -/

def RAM_CHUNK_SIZE : Nat := 500 * 4096 * 4096

def diskWriteBufferSize : Nat := 4096 * 4096

def diskInitialFileSize : Nat := 10 * 4096 * 4096

def cacheArraySize : Nat := 256000000

def cacheStride : Nat := 4096

def ringCapacity : Nat := 4

/-! The cancellation token.  `src/c.py` line 31: `stop_event = threading.Event()`.
A `threading.Event` is a boolean flag, initially unset; the program only
ever calls `set()` (lines 188, 304) and `is_set()`; `clear()` is never
called, so the operations available to the program are exactly `set`
(write true) and `isSet` (read). -/

structure Event where
  flag : Bool
deriving DecidableEq

/-- `threading.Event.set()`: the flag becomes true. -/
def Event.set (_ : Event) : Event := ⟨true⟩

/-- `threading.Event.is_set()`: read the flag. -/
def Event.isSet (e : Event) : Bool := e.flag

/-- The token as created at module load: unset. -/
def stop_event : Event := ⟨false⟩

/-- The operations the program performs on the token: `set()` calls and
`is_set()` reads.  A read does not change the state. -/
inductive EventOp
  | setCall
  | isSetCall
deriving DecidableEq

def Event.apply (e : Event) : EventOp → Event
  | EventOp.setCall => e.set
  | EventOp.isSetCall => e

/-- Run a whole sequence of token operations (any interleaving of any
number of callers is some such sequence). -/
def Event.applyAll (e : Event) (ops : List EventOp) : Event :=
  ops.foldl Event.apply e

lemma Event.apply_isSet_mono (e : Event) (op : EventOp) (h : e.isSet = true) :
    (e.apply op).isSet = true := by
  cases op <;> simp [Event.apply, Event.set, Event.isSet] at h ⊢
  exact h

lemma Event.applyAll_isSet_mono (e : Event) (ops : List EventOp) (h : e.isSet = true) :
    (e.applyAll ops).isSet = true := by
  induction ops generalizing e with
  | nil => exact h
  | cons op ops ih =>
      exact ih (e.apply op) (Event.apply_isSet_mono e op h)

lemma Event.applyAll_isSet_of_mem (e : Event) (ops : List EventOp)
    (h : EventOp.setCall ∈ ops) : (e.applyAll ops).isSet = true := by
  induction ops generalizing e with
  | nil => cases h
  | cons op ops ih =>
      rcases List.mem_cons.mp h with h1 | h2
      · subst h1
        exact Event.applyAll_isSet_mono _ ops (by simp [Event.apply, Event.set, Event.isSet])
      · exact ih (e.apply op) h2

/-! The shutdown routine.  `src/c.py` lines 298-324 (`cleanup`): if
`stop_event.is_set()` it returns at once; otherwise it sets the token,
shuts the executor pool down, sleeps the 2-second grace period, and
removes `DISK_FILE` if it exists.  The state records the token, which
side effects have run, whether the disk file exists, and how many times
the side-effect block has executed. -/

structure SysState where
  tokenSet : Bool
  poolStopped : Bool
  graceWaited : Bool
  fileExists : Bool
  cleanupRuns : Nat
deriving DecidableEq

/-- `cleanup()` from `src/c.py` lines 298-324: guard on the token, then
set the token and perform all side effects. -/
def cleanup (s : SysState) : SysState :=
  if s.tokenSet then s
  else
    { tokenSet := true
      poolStopped := true
      graceWaited := true
      fileExists := false
      cleanupRuns := s.cleanupRuns + 1 }

/-- `n` successive invocations of `cleanup`. -/
def iterateCleanup : Nat → SysState → SysState
  | 0, s => s
  | n + 1, s => iterateCleanup n (cleanup s)

lemma cleanup_of_tokenSet (s : SysState) (h : s.tokenSet = true) : cleanup s = s := by
  simp [cleanup, h]

lemma cleanup_tokenSet (s : SysState) : (cleanup s).tokenSet = true := by
  by_cases h : s.tokenSet
  · simp [cleanup, h]
  · simp [cleanup, h]

lemma iterateCleanup_of_tokenSet (n : Nat) (s : SysState) (h : s.tokenSet = true) :
    iterateCleanup n s = s := by
  induction n with
  | zero => rfl
  | succ n ih => simp [iterateCleanup, cleanup_of_tokenSet s h, ih]

lemma iterateCleanup_runs_le (n : Nat) (s : SysState) :
    (iterateCleanup n s).cleanupRuns ≤ s.cleanupRuns + 1 := by
  cases n with
  | zero => exact Nat.le_succ _
  | succ n =>
      show (iterateCleanup n (cleanup s)).cleanupRuns ≤ s.cleanupRuns + 1
      by_cases h : s.tokenSet
      · rw [cleanup_of_tokenSet s h, iterateCleanup_of_tokenSet n s h]
        exact Nat.le_succ _
      · have hset : (cleanup s).tokenSet = true := cleanup_tokenSet s
        rw [iterateCleanup_of_tokenSet n (cleanup s) hset]
        simp [cleanup, h]

/-! The RAM worker's chunk ring.  `src/c.py` lines 133-146 (`ram_stress`):
each iteration appends the newly allocated chunk to `memory_chunks`
(`memory_chunks.append(chunk)`), then, `if len(memory_chunks) > 4:`
removes the oldest chunk (`memory_chunks.pop(0)`).  The chunk contents
are irrelevant to the ring discipline, so the element type is a
parameter. -/

/-- One complete insertion into the ring: append, then drop the oldest
element when the length exceeds the capacity of 4. -/
def ringInsert {α : Type} (ring : List α) (c : α) : List α :=
  let r := ring ++ [c]
  if r.length > ringCapacity then r.drop 1 else r

/-- A whole sequence of insertions, oldest first. -/
def ringInsertAll {α : Type} (ring : List α) (cs : List α) : List α :=
  cs.foldl ringInsert ring

/-- The last `n` elements of a list, in order. -/
def lastN {α : Type} (n : Nat) (l : List α) : List α :=
  (l.reverse.take n).reverse

lemma lastN_of_length_le {α : Type} (n : Nat) (l : List α) (h : l.length ≤ n) :
    lastN n l = l := by
  unfold lastN
  rw [List.take_of_length_le (by simpa using h), List.reverse_reverse]

lemma lastN_length {α : Type} (n : Nat) (l : List α) :
    (lastN n l).length = min n l.length := by
  simp [lastN]

lemma lastN_cons {α : Type} (n : Nat) (x : α) (xs : List α) (h : xs.length = n) :
    lastN n (x :: xs) = xs := by
  unfold lastN
  rw [List.reverse_cons, List.take_append_eq_append_take,
    List.take_of_length_le (by simpa using Nat.le_of_eq h)]
  simp [h]

lemma lastN_lastN_append {α : Type} (n : Nat) (l m : List α) :
    lastN n (lastN n l ++ m) = lastN n (l ++ m) := by
  unfold lastN
  rw [List.reverse_append, List.reverse_reverse, List.reverse_append,
    List.take_append_eq_append_take, List.take_append_eq_append_take,
    List.take_take, Nat.min_eq_left (Nat.sub_le n _)]

lemma ringInsert_eq_lastN {α : Type} (ring : List α) (c : α)
    (h : ring.length ≤ 4) : ringInsert ring c = lastN 4 (ring ++ [c]) := by
  unfold ringInsert ringCapacity
  by_cases hlen : (ring ++ [c]).length > 4
  · have h4 : ring.length = 4 := by
      simp only [List.length_append, List.length_singleton] at hlen
      omega
    cases ring with
    | nil => simp at h4
    | cons a as =>
        have has : (as ++ [c]).length = 4 := by
          simp only [List.length_cons] at h4
          simp [h4]
        have hgt : (a :: (as ++ [c])).length > 4 := by simpa using hlen
        rw [List.cons_append, if_pos hgt, lastN_cons 4 a (as ++ [c]) has,
          List.drop_one, List.tail_cons]
  · have hle : (ring ++ [c]).length ≤ 4 := Nat.le_of_not_lt hlen
    simp only [hlen, if_false]
    rw [lastN_of_length_le 4 _ hle]

lemma ringInsert_length_le {α : Type} (ring : List α) (c : α)
    (h : ring.length ≤ 4) : (ringInsert ring c).length ≤ 4 := by
  rw [ringInsert_eq_lastN ring c h, lastN_length]
  exact Nat.min_le_left _ _

lemma ringInsertAll_eq_lastN {α : Type} (cs : List α) (ring : List α)
    (h : ring.length ≤ 4) : ringInsertAll ring cs = lastN 4 (ring ++ cs) := by
  induction cs generalizing ring with
  | nil =>
      simp only [ringInsertAll, List.foldl_nil, List.append_nil]
      exact (lastN_of_length_le 4 ring h).symm
  | cons c cs ih =>
      have step : ringInsertAll ring (c :: cs) = ringInsertAll (ringInsert ring c) cs := rfl
      rw [step, ih (ringInsert ring c) (ringInsert_length_le ring c h),
        ringInsert_eq_lastN ring c h, lastN_lastN_append,
        List.append_assoc, List.singleton_append]

/-! The disk worker.  `src/c.py` lines 161-192 (`disk_stress`): a
`try:` block holds the whole `while not stop_event.is_set():` loop of
write-then-read iterations; `except FileNotFoundError:` (after the
loop) creates the initial 10·4096·4096-byte file and, if that creation
itself fails, prints a fatal error and calls `stop_event.set()`;
`except Exception:` logs the error.  All three handlers sit after the
loop, and the function body ends after them.  The embedding keeps that
shape: the loop runs until it observes cancellation or raises, and the
handlers run once, with no path back into the loop.

Environment parameters: `cancelAt k` tells whether `stop_event.is_set()`
is observed at the top of iteration `k`, `errAt k` whether iteration
`k`'s I/O raises a non-`FileNotFoundError` exception, `createOk`
whether creating the initial file would succeed, and the `FS` record
holds the backing file's existence and size (opening with mode `r+b`
raises `FileNotFoundError` exactly when the file is missing; a
successful iteration writes the buffer at offset 0 and reads it back,
leaving existence and size unchanged). -/

structure FS where
  fileExists : Bool
  fileSize : Nat
deriving DecidableEq

/-- How the `while` loop of `disk_stress` is left. -/
inductive LoopRes
  | sawCancel
  | fileNotFound
  | ioError
  | fuelOut
deriving DecidableEq

/-- The `while not stop_event.is_set():` loop, fuel-bounded; returns how
it ended and how many write-then-read iterations completed. -/
def diskLoop (fileOk : Bool) (cancelAt errAt : Nat → Bool) :
    Nat → Nat → LoopRes × Nat
  | 0, k => (LoopRes.fuelOut, k)
  | fuel + 1, k =>
    if cancelAt k then (LoopRes.sawCancel, k)
    else if !fileOk then (LoopRes.fileNotFound, k)
    else if errAt k then (LoopRes.ioError, k)
    else diskLoop fileOk cancelAt errAt fuel (k + 1)

/-- How `disk_stress` as a whole returned. -/
inductive DiskExit
  | cancelled
  | fuelOut
  | createdFileThenReturn
  | createFailed
  | errorLoggedThenReturn
deriving DecidableEq

structure DiskResult where
  exit : DiskExit
  fs : FS
  writes : Nat
  tokenSetByWorker : Bool
deriving DecidableEq

/-- `disk_stress` from `src/c.py` lines 161-192: run the loop; on
`FileNotFoundError` create the initial file (setting the token when
creation fails); on any other exception log it.  After a handler the
function returns — there is no edge back into the loop. -/
def disk_stress (fuel : Nat) (createOk : Bool) (cancelAt errAt : Nat → Bool)
    (fs : FS) : DiskResult :=
  match diskLoop fs.fileExists cancelAt errAt fuel 0 with
  | (LoopRes.sawCancel, k) =>
      { exit := DiskExit.cancelled, fs := fs, writes := k, tokenSetByWorker := false }
  | (LoopRes.fuelOut, k) =>
      { exit := DiskExit.fuelOut, fs := fs, writes := k, tokenSetByWorker := false }
  | (LoopRes.fileNotFound, k) =>
      if createOk then
        { exit := DiskExit.createdFileThenReturn
          fs := { fileExists := true, fileSize := diskInitialFileSize }
          writes := k, tokenSetByWorker := false }
      else
        { exit := DiskExit.createFailed, fs := fs, writes := k, tokenSetByWorker := true }
  | (LoopRes.ioError, k) =>
      { exit := DiskExit.errorLoggedThenReturn, fs := fs, writes := k,
        tokenSetByWorker := false }

/-! The backing file's size over the disk worker's lifetime.  The file
is created at 10·4096·4096 bytes (`src/c.py` line 183 in the handler,
and identically line 312 in `main`'s pre-creation); each loop iteration
then opens it with mode `r+b`, seeks to offset 0 and writes the
4096·4096-byte buffer (lines 168-170), which leaves the size at
`max(size, len(buffer))` — a write at offset 0 never shrinks a file and
extends it only up to the buffer's length. -/

/-- The file as either creation site makes it. -/
def diskCreate : FS :=
  { fileExists := true, fileSize := diskInitialFileSize }

/-- The effect of one `f.seek(0); f.write(write_buffer)` on the file. -/
def diskWrite (fs : FS) : FS :=
  { fs with fileSize := max fs.fileSize diskWriteBufferSize }

/-- The file after creation followed by `n` buffer writes: every state
the backing file passes through while the disk worker runs. -/
def afterWrites : Nat → FS
  | 0 => diskCreate
  | n + 1 => diskWrite (afterWrites n)

/-! The cache worker.  `src/c.py` lines 86-103 (`cache_stress`): one
pass of the inner loop is `for i in range(array_size // stride):` with
`index = i * stride` and a read-modify-write of `data[index]`. -/

/-- The indices touched by one full pass of the `cache_stress` inner
loop, in loop order. -/
def cacheTouchedIndices (arraySize stride : Nat) : List Nat :=
  (List.range (arraySize / stride)).map (fun i => i * stride)

/-! The diagnosis monitor's rate computation.  `src/c.py` lines
263-269: each of the four rates is
`(end_counter - start_counter) / MONITOR_INTERVAL / (4096 * 4096)`,
with `MONITOR_INTERVAL = 5.0` (line 28).  The byte counters are
integers and the interval and divisor are exactly representable, so the
computation is modelled over `ℚ`. -/

def MONITOR_INTERVAL : ℚ := 5

/-- One rate, as `diagnosis_monitor` computes it. -/
def ioRate (startBytes endBytes : Nat) : ℚ :=
  ((endBytes : ℚ) - (startBytes : ℚ)) / MONITOR_INTERVAL / (4096 * 4096)

/-! Console output sites.  Every `print` call in the workers and the
monitor in `src/c.py`, and whether it runs while holding the global
`lock` (line 35).  The only `print` inside a `with lock:` block is the
monitor's report line (lines 289-290); every other listed site is a
bare `print`. -/

inductive LogSite
  | cpuStart
  | cpuError
  | gpuStart
  | gpuError
  | cacheStart
  | cacheError
  | ioBoundStart
  | ioBoundError
  | ramStart
  | ramFatal
  | ramError
  | diskStart
  | diskCreatedInfo
  | diskFatal
  | diskError
  | netStart
  | netInfo
  | netSSLError
  | netRequestError
  | netCritical
  | monitorStart
  | monitorReport
  | monitorError
deriving DecidableEq

/-- Whether the site's `print` executes under `with lock:`. -/
def emitsUnderLock : LogSite → Bool
  | LogSite.monitorReport => true
  | _ => false

/-! Theorems, one per claim. -/

/-- C1: at the claim's snapshots — (sent=0, recv=0) then
(sent=10485760, recv=5242880) five seconds apart — the monitor computes
a send rate of 1/8 and a receive rate of 1/16, because it divides by
4096·4096 = 2^24 rather than the 2^20 its own `MB/s` labels call for;
it does not compute the 2.0 and 1.0 the claim states. -/
theorem C1_monitor_rate_at_claim_snapshots :
    ioRate 0 10485760 = 1 / 8 ∧ ioRate 0 5242880 = 1 / 16 ∧
    ioRate 0 10485760 ≠ 2 ∧ ioRate 0 5242880 ≠ 1 := by
  norm_num [ioRate, MONITOR_INTERVAL]

/-- C2: with the backing file missing, cancellation never observed,
creation succeeding, and fuel to spare, `disk_stress` creates the
initial file and then returns with zero completed writes — the loop is
not resumed, so no "next write" ever happens; likewise a non-missing-file
I/O error at iteration 2 ends the worker instead of continuing the
loop. -/
theorem C2_disk_worker_returns_after_create :
    disk_stress 10 true (fun _ => false) (fun _ => false) ⟨false, 0⟩ =
      { exit := DiskExit.createdFileThenReturn
        fs := { fileExists := true, fileSize := diskInitialFileSize }
        writes := 0, tokenSetByWorker := false } ∧
    disk_stress 10 true (fun _ => false) (fun k => k == 2) ⟨true, diskInitialFileSize⟩ =
      { exit := DiskExit.errorLoggedThenReturn
        fs := { fileExists := true, fileSize := diskInitialFileSize }
        writes := 2, tokenSetByWorker := false } :=
  ⟨rfl, rfl⟩

/-- C3: a failed file creation makes the disk worker set the token, but
`cleanup` invoked with the token already set returns unchanged — no
pool stop, no grace wait, no file removal — whereas `cleanup` on the
external-interrupt path (token unset) performs all of them.  The
disk-creation-failure path therefore does not reach the Shutdown side
effects. -/
theorem C3_create_failure_skips_shutdown_effects :
    (disk_stress 10 false (fun _ => false) (fun _ => false) ⟨false, 0⟩).tokenSetByWorker
      = true ∧
    cleanup { tokenSet := true, poolStopped := false, graceWaited := false,
              fileExists := true, cleanupRuns := 0 } =
      { tokenSet := true, poolStopped := false, graceWaited := false,
        fileExists := true, cleanupRuns := 0 } ∧
    cleanup { tokenSet := false, poolStopped := false, graceWaited := false,
              fileExists := true, cleanupRuns := 0 } =
      { tokenSet := true, poolStopped := true, graceWaited := true,
        fileExists := false, cleanupRuns := 1 } :=
  ⟨rfl, rfl, rfl⟩

/-- C4: after any sequence of token operations containing a `set()`
call, `isSet` returns true, and once the token is set, no sequence of
the program's operations ever makes `isSet` observe false again. -/
theorem C4_cancellation_token_monotone (e : Event) (ops : List EventOp) :
    (EventOp.setCall ∈ ops → (e.applyAll ops).isSet = true) ∧
    (e.isSet = true → (e.applyAll ops).isSet = true) :=
  ⟨Event.applyAll_isSet_of_mem e ops, Event.applyAll_isSet_mono e ops⟩

/-- C4 witness: the initial token, after one `set()` call and one
`is_set()` read, reports set. -/
theorem C4_witness :
    (stop_event.applyAll [EventOp.setCall, EventOp.isSetCall]).isSet = true :=
  (C4_cancellation_token_monotone stop_event
    [EventOp.setCall, EventOp.isSetCall]).1 (by decide)

/-- C5: invoking `cleanup` any number of times executes its side-effect
block at most once: the run counter rises by at most one, an invocation
with the token already set changes nothing, and `cleanup` is
idempotent. -/
theorem C5_cleanup_at_most_once (n : Nat) (s : SysState) :
    (iterateCleanup n s).cleanupRuns ≤ s.cleanupRuns + 1 ∧
    (s.tokenSet = true → iterateCleanup n s = s) ∧
    cleanup (cleanup s) = cleanup s :=
  ⟨iterateCleanup_runs_le n s, iterateCleanup_of_tokenSet n s,
    cleanup_of_tokenSet (cleanup s) (cleanup_tokenSet s)⟩

/-- C5 witness: three invocations starting with the token set leave the
state untouched. -/
theorem C5_witness :
    iterateCleanup 3 ⟨true, false, false, true, 0⟩ =
      (⟨true, false, false, true, 0⟩ : SysState) :=
  (C5_cleanup_at_most_once 3 ⟨true, false, false, true, 0⟩).2.1 rfl

/-- C6: after any sequence of at least five insertions into the empty
ring, the ring holds exactly the four most recently inserted chunks in
insertion order, its length is 4, and after any insertion sequence at
all the length never exceeds the capacity 4. -/
theorem C6_memory_chunk_ring {α : Type} (cs : List α) (h : 5 ≤ cs.length) :
    ringInsertAll ([] : List α) cs = lastN 4 cs ∧
    (ringInsertAll ([] : List α) cs).length = 4 ∧
    ∀ ds : List α, (ringInsertAll ([] : List α) ds).length ≤ 4 := by
  have hmain : ringInsertAll ([] : List α) cs = lastN 4 cs := by
    simpa using ringInsertAll_eq_lastN cs [] (by simp)
  refine ⟨hmain, ?_, ?_⟩
  · rw [hmain, lastN_length]
    omega
  · intro ds
    have hds : ringInsertAll ([] : List α) ds = lastN 4 ds := by
      simpa using ringInsertAll_eq_lastN ds [] (by simp)
    rw [hds, lastN_length]
    omega

/-- C6 witness: five concrete insertions leave the four most recent
chunks, and the length is 4. -/
theorem C6_witness :
    ringInsertAll ([] : List Nat) [0, 1, 2, 3, 4] = lastN 4 [0, 1, 2, 3, 4] ∧
    (ringInsertAll ([] : List Nat) [0, 1, 2, 3, 4]).length = 4 :=
  ⟨(@C6_memory_chunk_ring Nat [0, 1, 2, 3, 4] (by decide)).1,
   (@C6_memory_chunk_ring Nat [0, 1, 2, 3, 4] (by decide)).2.1⟩

/-- C7: one full pass of the cache worker's inner loop at the
configured array size and stride touches exactly 62500 =
`array_size / stride` distinct indices, every one a multiple of the
stride. -/
theorem C7_cache_pass :
    (cacheTouchedIndices cacheArraySize cacheStride).length = 62500 ∧
    cacheArraySize / cacheStride = 62500 ∧
    (cacheTouchedIndices cacheArraySize cacheStride).Nodup ∧
    (∀ idx ∈ cacheTouchedIndices cacheArraySize cacheStride,
      idx % cacheStride = 0) := by
  refine ⟨?_, by decide, ?_, ?_⟩
  · simp only [cacheTouchedIndices, List.length_map, List.length_range]
    decide
  · refine List.Nodup.map ?_ (List.nodup_range _)
    intro a b hab
    exact Nat.eq_of_mul_eq_mul_right (by decide) hab
  · intro idx hidx
    obtain ⟨i, _, rfl⟩ := List.mem_map.mp hidx
    exact Nat.mul_mod_left i cacheStride

/-- C7 witness: index 0 is among the touched indices and is a multiple
of the stride. -/
theorem C7_witness : (0 : Nat) % cacheStride = 0 :=
  C7_cache_pass.2.2.2 0
    (List.mem_map.mpr ⟨0, List.mem_range.mpr (by decide), by decide⟩)

/-- C8 counterexample: the write/read buffer is not 4 MiB and the
initial file is not 10 MiB — the constants are 4096·4096 and
10·4096·4096 bytes. -/
theorem C8_counterexample :
    ¬(diskWriteBufferSize = 4 * 2 ^ 20 ∧ diskInitialFileSize = 10 * 2 ^ 20) := by
  decide

/-- C8 (amended): the disk worker's buffer is 16 MiB, the backing file
is created at 160 MiB (ten times the buffer), and the file's size is
always at least as large as the buffer: at creation and after every
subsequent write of the buffer at offset zero. -/
theorem C8_disk_sizes :
    diskWriteBufferSize = 16 * 2 ^ 20 ∧ diskInitialFileSize = 160 * 2 ^ 20 ∧
    ∀ n : Nat, diskWriteBufferSize ≤ (afterWrites n).fileSize := by
  refine ⟨by decide, by decide, ?_⟩
  intro n
  cases n with
  | zero => decide
  | succ n => exact Nat.le_max_right _ _

/-- C9 counterexample: the CPU worker's startup line — one of the lines
the claim cites — is printed without holding the console lock. -/
theorem C9_counterexample : emitsUnderLock LogSite.cpuStart = false := rfl

/-- C9 (amended): only the monitor's periodic report line is emitted
while holding the console lock; every other worker/monitor log line is
printed without it. -/
theorem C9_lock_only_monitor_report :
    emitsUnderLock LogSite.monitorReport = true ∧
    ∀ s : LogSite, s ≠ LogSite.monitorReport → emitsUnderLock s = false := by
  refine ⟨rfl, ?_⟩
  intro s hs
  cases s <;> first | rfl | exact absurd rfl hs

/-- C9 witness: the disk worker's file-creation info line is not under
the lock. -/
theorem C9_witness : emitsUnderLock LogSite.diskCreatedInfo = false :=
  C9_lock_only_monitor_report.2 LogSite.diskCreatedInfo (by decide)

/-- C10: every index the cache worker's inner loop computes is strictly
below the array size, so each access is in bounds. -/
theorem C10_cache_index_in_bounds (i : Nat)
    (h : i < cacheArraySize / cacheStride) : i * cacheStride < cacheArraySize := by
  have h1 : (i + 1) * cacheStride ≤ (cacheArraySize / cacheStride) * cacheStride :=
    Nat.mul_le_mul_right cacheStride h
  have h2 : (cacheArraySize / cacheStride) * cacheStride ≤ cacheArraySize :=
    Nat.div_mul_le_self _ _
  have h3 : i * cacheStride < (i + 1) * cacheStride := by
    have hpos : 0 < cacheStride := by decide
    calc i * cacheStride < i * cacheStride + cacheStride :=
          Nat.lt_add_of_pos_right hpos
      _ = (i + 1) * cacheStride := by ring
  exact Nat.lt_of_lt_of_le h3 (Nat.le_trans h1 h2)

/-- C10 witness: the first loop index is in bounds. -/
theorem C10_witness : 0 * cacheStride < cacheArraySize :=
  C10_cache_index_in_bounds 0 (by decide)

end StressTest
